import Mathlib

/-!
Shallow embedding of the irrigation flow monitor (`flow_monitor.py`) event
machinery: the per-zone state record, the single-consumer event loop's two
branches (`WEBHOOK` and `FLOW_TIMER`), the HTTP `PostHandler` validation, and
the leak-check watchdog's self-test wait.

Modelling conventions:
- Python floats are modelled as exact rationals (`Rat`); none of the verified
  properties depend on rounding.
- A Python value that may be `None` is an `Option`.
- Python dictionary/attribute accesses that can raise (`KeyError`,
  `AttributeError`, `TypeError`) are modelled with `Except Fault`; an `error`
  result models an exception propagating out of the event-loop body (the loop
  catches only `KeyboardInterrupt`, so such an exception terminates the
  consumer).  No zone state is mutated before any of the modelled raise sites.
- External meter reads (`water_meter.read_meter`) are inputs to each step: a
  `MeterData` with optional `accumulated` and `flow` fields (`read_meter`
  returns `{}` on any failure, so `.get(..., None)` yields `None`).
- Side effects (records written to the database sink, `send_notification`
  calls, `threading.Timer` arming, `test_message_received.set()`) are
  collected in an `Effects` record.
-/

/-- Python exception kinds that the modelled code can raise. -/
inductive Fault where
  | keyError
  | attributeError
  | typeError
deriving DecidableEq, Repr

/-- Result of `water_meter.read_meter`: a JSON dict with optional
`accumulated` and `flow` fields (absent on failure). -/
structure MeterData where
  accumulated : Option Rat
  flow : Option Rat
deriving DecidableEq, Repr

/-- Per-zone state, mirroring class `zone_state` in `flow_monitor.py`.
`startId` is `none` until the first STARTED event assigns the attribute
(`zone.startId = eventId`); reading it while `none` models the
`AttributeError` a never-assigned attribute would raise.  The unused
`flow_timer` field of `__init__` and the `timer` handle are omitted: the
timer's observable behaviour (the payload it will enqueue) is recorded in
`Effects.armed` instead. -/
structure zone_state where
  valve_open : Bool
  meter_start_value : Option Rat
  flow : Option Rat
  usage : Option Rat
  startId : Option String
  id : String
  name : String
deriving DecidableEq, Repr

/-- `zone_state.__init__`: closed valve, no meter start value, no flow,
usage `0`, `startId` attribute not yet assigned. -/
def zone_state.init (zone_id zone_name : String) : zone_state :=
  { valve_open := false
    meter_start_value := none
    flow := none
    usage := some 0
    startId := none
    id := zone_id
    name := zone_name }

/-- A decoded webhook payload object; `zoneNumber` is `none` when the
`'zoneNumber'` key is missing (its access would raise `KeyError`). -/
structure Payload where
  zoneNumber : Option Nat
deriving DecidableEq, Repr

/-- A decoded webhook JSON body as consumed by the event loop; each field is
`none` when the corresponding dictionary key is missing. -/
structure WebhookData where
  eventType : Option String
  eventId : Option String
  payload : Option Payload
deriving DecidableEq, Repr

/-- The two event kinds placed on `event_queue`. -/
inductive EVENT_TYPE where
  | WEBHOOK
  | FLOW_TIMER
deriving DecidableEq, Repr

/-- A finalized usage record written to the database sink
(`Point(zone_name).field("usage", usage).field("flow", zone.flow)`). -/
structure Record where
  zoneName : String
  usage : Option Rat
  flow : Option Rat
deriving DecidableEq, Repr

/-- Observable side effects of one event-loop step. -/
structure Effects where
  records : List Record
  alerts : List String
  armed : List (Nat × String)
  flagSet : Bool
deriving DecidableEq, Repr

/-- No side effects. -/
def Effects.pure : Effects :=
  { records := [], alerts := [], armed := [], flagSet := false }

/-- `pat` is a prefix of `l` (over characters). -/
def listHasPrefix : List Char → List Char → Bool
  | [], _ => true
  | _ :: _, [] => false
  | p :: ps, c :: cs => p == c && listHasPrefix ps cs

/-- `pat` occurs contiguously somewhere in `l`. -/
def listHasInfix (pat : List Char) : List Char → Bool
  | [] => listHasPrefix pat []
  | c :: cs => listHasPrefix pat (c :: cs) || listHasInfix pat cs

/-- Python substring containment: `pat in s`. -/
def strContains (s pat : String) : Bool :=
  listHasInfix pat.data s.data

/-- The zone registry built at startup: `zones[zoneNumber]`, `none` for a
number not in the map. -/
def Zones : Type := Nat → Option zone_state

/-- Replace one zone's state in the registry. -/
def updZone (zones : Zones) (n : Nat) (z : zone_state) : Zones :=
  fun m => if m = n then some z else zones m

@[simp] theorem updZone_same (zones : Zones) (n : Nat) (z : zone_state) :
    updZone zones n z n = some z := by
  simp [updZone]

/-- The water-usage determination in the OPEN branch (lines 371-380):
`None` if the running total, the captured start value or the fresh
accumulated reading is unavailable, otherwise
`zone.usage + meter_end_value - zone.meter_start_value`. -/
def usageAt (zusage meter_start meter_end : Option Rat) : Option Rat :=
  match zusage, meter_start, meter_end with
  | some u, some s, some e => some (u + e - s)
  | _, _, _ => none

@[simp] theorem usageAt_some (u s e : Rat) :
    usageAt (some u) (some s) (some e) = some (u + e - s) := rfl

@[simp] theorem usageAt_none_usage (b c : Option Rat) :
    usageAt none b c = none := by
  cases b <;> cases c <;> rfl

@[simp] theorem usageAt_none_start (a c : Option Rat) :
    usageAt a none c = none := by
  cases a <;> cases c <;> rfl

@[simp] theorem usageAt_none_end (a b : Option Rat) :
    usageAt a b none = none := by
  cases a <;> cases b <;> rfl

/-- The `EVENT_TYPE.WEBHOOK` branch of the event loop (lines 343-425 of
`flow_monitor.py`), as a function of the registry, the dequeued data and the
meter reading taken at line 360.  Returns the updated registry and the side
effects, or the fault that would propagate out of the loop. -/
def handleWebhook (zones : Zones) (edata : WebhookData) (meter : MeterData) :
    Except Fault (Zones × Effects) :=
  match edata.eventType with
  | none => .error .keyError
  | some eventType =>
    if strContains eventType "WEBHOOK_TEST" then
      -- private type to test webhook forwarding: set the flag and continue
      .ok (zones, { Effects.pure with flagSet := true })
    else if !strContains eventType "DEVICE_ZONE_RUN" then
      -- log.warning(f'ignoring {eventType}'); continue
      .ok (zones, Effects.pure)
    else
      match edata.eventId with
      | none => .error .keyError
      | some eventId =>
      match edata.payload with
      | none => .error .keyError
      | some payload =>
      match payload.zoneNumber with
      | none => .error .keyError
      | some zoneNumber =>
      match zones zoneNumber with
      | none => .error .keyError      -- zones[zoneNumber] on an unknown zone
      | some zone =>
        -- meter_data = water_meter.read_meter(wm_name) : the `meter` input
        if zone.valve_open then
          if strContains eventType "STARTED" then
            -- duplicate start while already open: log and continue
            .ok (zones, Effects.pure)
          else
            -- eventType is one of PAUSED/STOPPED/COMPLETED (or unexpected)
            let meter_end_value := meter.accumulated
            let usage : Option Rat :=
              usageAt zone.usage zone.meter_start_value meter_end_value
            if strContains eventType "PAUSED" then
              .ok (updZone zones zoneNumber
                    { zone with valve_open := false, usage := usage },
                  Effects.pure)
            else
              -- STOPPED / COMPLETED / unexpected: emit record, reset zone
              .ok (updZone zones zoneNumber
                    { zone with valve_open := false, usage := some 0,
                                flow := none },
                  { Effects.pure with
                      records := [{ zoneName := zone.name, usage := usage,
                                    flow := zone.flow }] })
        else
          if strContains eventType "STARTED" then
            let z : zone_state :=
              { zone with valve_open := true,
                          meter_start_value := meter.accumulated,
                          startId := some eventId }
            -- arm the 20 s flow timer only if no flow rate is known yet;
            -- the Timer's args (zoneNumber, eventId) are fixed at arm time
            let armed : List (Nat × String) :=
              if zone.flow = none then [(zoneNumber, eventId)] else []
            .ok (updZone zones zoneNumber z, { Effects.pure with armed := armed })
          else
            -- valve not open: log.info and ignore
            .ok (zones, Effects.pure)

/-- The `EVENT_TYPE.FLOW_TIMER` branch of the event loop (lines 427-442).
`flowConfig` is the `[FLOW]` section of `config.ini` as a key → raw-string
map (`config.get('FLOW', key, fallback=None)`).  Faithful to the source:

- `if not zone.valve_open or zone.startId != timerId: continue` —
  Python `or` short-circuits, so `zone.startId` is read only when the valve
  is open; on a never-opened zone the attribute was never assigned and
  reading it would raise `AttributeError`.
- `flow_limit = config.get('FLOW', 'str(zoneNumber)', fallback=None)` —
  the lookup key is the literal eleven-character string `str(zoneNumber)`,
  not the stringified zone number.
- `zone.flow and flow_limit and zone.flow > flow_limit` — when both
  operands are truthy (flow not `None` and nonzero, limit not `None` and
  nonempty) the comparison compares a float with a str, which raises
  `TypeError`; otherwise the `and` chain is falsy and no alert is sent. -/
def handleFlowTimer (zones : Zones) (flowConfig : String → Option String)
    (zoneNumber : Nat) (timerId : String) (meter : MeterData) :
    Except Fault (Zones × Effects) :=
  match zones zoneNumber with
  | none => .error .keyError
  | some zone =>
    if !zone.valve_open then
      .ok (zones, Effects.pure)
    else
      match zone.startId with
      | none => .error .attributeError
      | some s =>
        if s ≠ timerId then
          .ok (zones, Effects.pure)
        else
          let z : zone_state := { zone with flow := meter.flow }
          let flow_limit := flowConfig "str(zoneNumber)"
          match z.flow, flow_limit with
          | some f, some lim =>
            if f ≠ 0 ∧ lim ≠ "" then .error .typeError
            else .ok (updZone zones zoneNumber z, Effects.pure)
          | _, _ => .ok (updZone zones zoneNumber z, Effects.pure)

/-- A dequeued event together with the meter reading the external meter
would return if this step reads it. -/
def runWebhooks : Zones → List (WebhookData × MeterData) →
    Except Fault (Zones × List Record)
  | zones, [] => .ok (zones, [])
  | zones, (e, m) :: rest =>
    match handleWebhook zones e m with
    | .error f => .error f
    | .ok (zones1, eff) =>
      match runWebhooks zones1 rest with
      | .error f => .error f
      | .ok (zones2, recs) => .ok (zones2, eff.records ++ recs)

/-- The expected webhook callback path. -/
def webhook_path : String := "/rachio.json"

/-- An inbound HTTP POST as seen by `PostHandler`: the request path, the raw
`Content-Length` and `Content-Type` header values (`none` when absent — the
`email.message` header lookup returns `None` rather than raising), and the
result of reading `Content-Length` bytes of body and passing them to
`json.loads`: `none` models a body that raises on decode (or decodes to the
JSON literal `null`, which Python also represents as `None`), `some d` a
body decoding to the structured payload `d`. -/
structure HttpRequest where
  path : String
  contentLengthHeader : Option String
  contentTypeHeader : Option String
  decodedBody : Option WebhookData
deriving DecidableEq, Repr

/-- Accumulate decimal digits; `none` on the first non-digit. -/
def parseDigitsAux : List Char → Nat → Option Nat
  | [], acc => some acc
  | c :: cs, acc =>
    if c.isDigit then parseDigitsAux cs (acc * 10 + (c.toNat - 48)) else none

/-- Python `int(s)` on a string: an optional minus sign followed by decimal
digits (surrounding whitespace and an explicit plus sign are not needed by
any claim and are not modelled); `none` models the `ValueError` a
non-numeric string raises. -/
def pyIntParse (s : String) : Option Int :=
  match s.data with
  | [] => none
  | '-' :: [] => none
  | '-' :: c :: cs => (parseDigitsAux (c :: cs) 0).map (fun n => -(n : Int))
  | c :: cs => (parseDigitsAux (c :: cs) 0).map (fun n => (n : Int))

/-- Python `int(x)` on an optional header value: `int(None)` raises
`TypeError` and a non-numeric string raises `ValueError`, both caught by the
bare `except` in `validate`; modelled as `none`. -/
def parseContentLength (h : Option String) : Option Int :=
  h.bind pyIntParse

/-- `PostHandler.validate` (lines 188-206): checks path, integer
`Content-Length`, `Content-Type: application/json`, and JSON decoding;
returns the decoded data or `None`. -/
def PostHandler.validate (req : HttpRequest) : Option WebhookData :=
  if req.path ≠ webhook_path then none
  else if parseContentLength req.contentLengthHeader = none then none
  else if req.contentTypeHeader ≠ some "application/json" then none
  else req.decodedBody

/-- An HTTP response: the status code sent and whether the `'OK'`
acknowledgement body was written. -/
structure HttpResponse where
  status : Nat
  okBody : Bool
deriving DecidableEq, Repr

/-- `PostHandler.do_POST` (lines 208-218): reject with `400 Bad Request` on
validation failure, otherwise acknowledge with `200`/`OK` and enqueue
exactly one `WEBHOOK` event carrying the decoded data.  Returns the
response and the list of events appended to `event_queue`. -/
def PostHandler.do_POST (req : HttpRequest) :
    HttpResponse × List (EVENT_TYPE × WebhookData) :=
  match PostHandler.validate req with
  | none => ({ status := 400, okBody := false }, [])
  | some data =>
    ({ status := 200, okBody := true }, [(EVENT_TYPE.WEBHOOK, data)])

/-- The self-test wait at the end of each `leak_check` cycle (lines
326-330).  The input is the value `test_message_received.wait(timeout=10)`
returns — whether the completion flag was set within the timeout.  The
output is the flag value afterwards (cleared on observation, still unset on
timeout) and the notifications sent (`'Irrigation webhook test failed'` on
timeout). -/
def leak_check_selftest_wait (flagSetWithinTimeout : Bool) :
    Bool × List String :=
  if flagSetWithinTimeout then (false, [])
  else (false, ["Irrigation webhook test failed"])

/-- A well-formed zone-run webhook body: all required keys present. -/
def mkRunEvent (et eid : String) (z : Nat) : WebhookData :=
  { eventType := some et, eventId := some eid,
    payload := some { zoneNumber := some z } }

/-- The Rachio zone-run event-type strings (see the comment block in
`rachio.py`: `DEVICE_ZONE_RUN_STARTED/PAUSED/STOPPED/COMPLETED_EVENTS`). -/
def etSTARTED : String := "DEVICE_ZONE_RUN_STARTED_EVENT"

def etPAUSED : String := "DEVICE_ZONE_RUN_PAUSED_EVENT"

def etSTOPPED : String := "DEVICE_ZONE_RUN_STOPPED_EVENT"

def etCOMPLETED : String := "DEVICE_ZONE_RUN_COMPLETED_EVENT"

@[simp] theorem etSTARTED_not_test : strContains etSTARTED "WEBHOOK_TEST" = false := by decide

@[simp] theorem etSTARTED_run : strContains etSTARTED "DEVICE_ZONE_RUN" = true := by decide

@[simp] theorem etSTARTED_started : strContains etSTARTED "STARTED" = true := by decide

@[simp] theorem etPAUSED_not_test : strContains etPAUSED "WEBHOOK_TEST" = false := by decide

@[simp] theorem etPAUSED_run : strContains etPAUSED "DEVICE_ZONE_RUN" = true := by decide

@[simp] theorem etPAUSED_not_started : strContains etPAUSED "STARTED" = false := by decide

@[simp] theorem etPAUSED_paused : strContains etPAUSED "PAUSED" = true := by decide

@[simp] theorem etSTOPPED_not_test : strContains etSTOPPED "WEBHOOK_TEST" = false := by decide

@[simp] theorem etSTOPPED_run : strContains etSTOPPED "DEVICE_ZONE_RUN" = true := by decide

@[simp] theorem etSTOPPED_not_started : strContains etSTOPPED "STARTED" = false := by decide

@[simp] theorem etSTOPPED_not_paused : strContains etSTOPPED "PAUSED" = false := by decide

/-- A registry with a single, never-opened zone numbered 1. -/
def zonesOneZone : Zones :=
  fun n => if n = 1 then some (zone_state.init "zid1" "front yard") else none

/-- A zone that is open under correlation id `"run1"`. -/
def zoneOpenW : zone_state :=
  { valve_open := true, meter_start_value := some 100, flow := none,
    usage := some 0, startId := some "run1", id := "zidW", name := "back yard" }

/-- A registry with the open zone `zoneOpenW` at number 2. -/
def zonesW : Zones := fun n => if n = 2 then some zoneOpenW else none

/-- C1: a dequeued `FlowSample` is acted upon (meter read, result stored as
the zone's `flow`) only when the zone's valve is open and the sample's
correlation token equals the zone's current `startId`; in every other
case — valve closed, or a token from an earlier run — the handler returns
with the registry untouched (every `zone_state` field unchanged) and no
side effects.  The acting case is stated under the realistic configuration
where the `[FLOW]` section has no entry under the literal lookup key, which
is the only configuration in which the source's alert check is a no-op
rather than a `TypeError`. -/
theorem flowmon_C1_flow_sample_gating
    (zones : Zones) (cfg : String → Option String) (z : Nat) (tok : String)
    (meter : MeterData) (zone : zone_state) (hz : zones z = some zone) :
    ((zone.valve_open = false ∨ ∃ s, zone.startId = some s ∧ s ≠ tok) →
        handleFlowTimer zones cfg z tok meter = .ok (zones, Effects.pure)) ∧
    (zone.valve_open = true → zone.startId = some tok →
      cfg "str(zoneNumber)" = none →
        handleFlowTimer zones cfg z tok meter
          = .ok (updZone zones z { zone with flow := meter.flow },
                 Effects.pure)) := by
  constructor
  · rintro (ho | ⟨s, hs, hneq⟩)
    · simp [handleFlowTimer, hz, ho]
    · by_cases ho : zone.valve_open
      · simp [handleFlowTimer, hz, ho, hs, hneq]
      · simp [handleFlowTimer, hz, ho]
  · intro ho hs hcfg
    cases hf : meter.flow with
    | none => simp [handleFlowTimer, hz, ho, hs, hcfg, hf]
    | some f => simp [handleFlowTimer, hz, ho, hs, hcfg, hf]

/-- Witness for C1: a sample carrying the stale token `"run0"` delivered to
zone 2, which is open under `"run1"`, is discarded without effect. -/
theorem flowmon_C1_witness :
    handleFlowTimer zonesW (fun _ => none) 2 "run0"
      { accumulated := none, flow := some 3 } = .ok (zonesW, Effects.pure) :=
  (flowmon_C1_flow_sample_gating zonesW (fun _ => none) 2 "run0"
      { accumulated := none, flow := some 3 } zoneOpenW rfl).1
    (Or.inr ⟨"run1", rfl, by decide⟩)

/-- C6: a `STARTED` webhook for a zone whose valve is already open is a
no-op — the registry is returned unchanged (so `meter_start_value`,
`startId`, `usage`, `flow` and `valve_open` all keep their values) and no
timer is armed, no record emitted, no alert sent. -/
theorem flowmon_C6_duplicate_start_noop
    (zones : Zones) (et eid : String) (z : Nat) (zone : zone_state)
    (meter : MeterData)
    (hz : zones z = some zone) (ho : zone.valve_open = true)
    (h1 : strContains et "WEBHOOK_TEST" = false)
    (h2 : strContains et "DEVICE_ZONE_RUN" = true)
    (h3 : strContains et "STARTED" = true) :
    handleWebhook zones (mkRunEvent et eid z) meter = .ok (zones, Effects.pure) := by
  simp [handleWebhook, mkRunEvent, hz, ho, h1, h2, h3]

/-- Witness for C6: a duplicate `STARTED` for the open zone 2. -/
theorem flowmon_C6_witness :
    handleWebhook zonesW (mkRunEvent etSTARTED "e9" 2)
      { accumulated := some 5, flow := none } = .ok (zonesW, Effects.pure) :=
  flowmon_C6_duplicate_start_noop zonesW etSTARTED "e9" 2 zoneOpenW
    { accumulated := some 5, flow := none } rfl rfl (by decide) (by decide)
    (by decide)

/-- C7: on a CLOSED→OPEN transition the handler arms at most one
`FlowSampler` — exactly one when the zone's `flow` is unknown at open time,
none otherwise — and the armed payload is the pair `(zoneNumber, eventId)`
captured at arm time, the same `eventId` recorded as the zone's new
`startId`. -/
theorem flowmon_C7_arm_once_with_captured_token
    (zones : Zones) (et eid : String) (z : Nat) (zone : zone_state)
    (meter : MeterData)
    (hz : zones z = some zone) (hc : zone.valve_open = false)
    (h1 : strContains et "WEBHOOK_TEST" = false)
    (h2 : strContains et "DEVICE_ZONE_RUN" = true)
    (h3 : strContains et "STARTED" = true) :
    handleWebhook zones (mkRunEvent et eid z) meter
      = .ok (updZone zones z
               { zone with valve_open := true,
                           meter_start_value := meter.accumulated,
                           startId := some eid },
             { Effects.pure with
                 armed := if zone.flow = none then [(z, eid)] else [] }) := by
  simp [handleWebhook, mkRunEvent, hz, hc, h1, h2, h3]

/-- Witness for C7: opening the never-opened zone 1 (whose `flow` is
unknown) arms exactly one timer carrying `(1, "e1")`. -/
theorem flowmon_C7_witness :
    handleWebhook zonesOneZone (mkRunEvent etSTARTED "e1" 1)
      { accumulated := some 7, flow := none }
      = .ok (updZone zonesOneZone 1
               { (zone_state.init "zid1" "front yard") with
                   valve_open := true,
                   meter_start_value := some 7,
                   startId := some "e1" },
             { Effects.pure with armed := [(1, "e1")] }) := by
  have h := flowmon_C7_arm_once_with_captured_token zonesOneZone etSTARTED "e1"
    1 (zone_state.init "zid1" "front yard")
    { accumulated := some 7, flow := none } rfl rfl (by decide) (by decide)
    (by decide)
  simpa [zone_state.init] using h

/-- C10: a `FlowSample` for a registered but closed zone is a pure no-op
that cannot fault: the open-valve test short-circuits before `startId` is
read, so the theorem holds with no assumption on `startId` — in particular
for a never-opened zone whose `startId` is still unassigned (`none`), where
reading it would have been the modelled `AttributeError`. -/
theorem flowmon_C10_closed_zone_sample_safe
    (zones : Zones) (cfg : String → Option String) (z : Nat) (tok : String)
    (meter : MeterData) (zone : zone_state)
    (hz : zones z = some zone) (hc : zone.valve_open = false) :
    handleFlowTimer zones cfg z tok meter = .ok (zones, Effects.pure) := by
  simp [handleFlowTimer, hz, hc]

/-- Witness for C10: a sample for the never-opened zone 1 (closed,
`startId = none`) returns cleanly with nothing changed. -/
theorem flowmon_C10_witness :
    handleFlowTimer zonesOneZone (fun _ => none) 1 "tok"
      { accumulated := none, flow := none } = .ok (zonesOneZone, Effects.pure) :=
  flowmon_C10_closed_zone_sample_safe zonesOneZone (fun _ => none) 1 "tok"
    { accumulated := none, flow := none } (zone_state.init "zid1" "front yard")
    rfl rfl

/-- Counterexample to C2: a well-formed zone-run `STARTED` webhook for zone
number 99, which is not in the registry (the registry holds only zone 1),
makes the event-loop body raise `KeyError` at `zones[zoneNumber]` — the
loop catches only `KeyboardInterrupt`, so the exception terminates the
consumer — instead of dropping the event with a warning as claimed. -/
theorem flowmon_C2_counterexample :
    handleWebhook zonesOneZone (mkRunEvent etSTARTED "e1" 99)
      { accumulated := some 100, flow := none } = .error Fault.keyError := rfl

/-- C2 (amended): a dequeued zone-run webhook whose `eventType` key is
missing, or whose zone-run `eventType` is present but whose `eventId`,
`payload` or `payload.zoneNumber` key is missing, or whose zone number is
not in the registry, raises an uncaught `KeyError`; no `zone_state` is
mutated before the raise (the `error` result carries no registry), and the
exception propagates out of the consumer loop. -/
theorem flowmon_C2_keyError
    (zones : Zones) (edata : WebhookData) (meter : MeterData)
    (h : edata.eventType = none ∨
         ∃ et, edata.eventType = some et ∧
           strContains et "WEBHOOK_TEST" = false ∧
           strContains et "DEVICE_ZONE_RUN" = true ∧
           (edata.eventId = none ∨ edata.payload = none ∨
            (∃ p, edata.payload = some p ∧ p.zoneNumber = none) ∨
            (∃ p n, edata.payload = some p ∧ p.zoneNumber = some n ∧
              zones n = none))) :
    handleWebhook zones edata meter = .error Fault.keyError := by
  obtain h | ⟨et, het, h1, h2, h3⟩ := h
  · simp [handleWebhook, h]
  · obtain h3 | h3 | ⟨p, hp, hn⟩ | ⟨p, n, hp, hn, hzn⟩ := h3
    · simp [handleWebhook, het, h1, h2, h3]
    · cases hid : edata.eventId <;> simp [handleWebhook, het, h1, h2, h3, hid]
    · cases hid : edata.eventId <;>
        simp [handleWebhook, het, h1, h2, hp, hn, hid]
    · cases hid : edata.eventId <;>
        simp [handleWebhook, het, h1, h2, hp, hn, hzn, hid]

/-- Witness for the amended C2: a zone-run webhook missing its `eventId`
key raises `KeyError`. -/
theorem flowmon_C2_witness :
    handleWebhook zonesOneZone
      { eventType := some etSTOPPED, eventId := none, payload := none }
      { accumulated := none, flow := none } = .error Fault.keyError :=
  flowmon_C2_keyError zonesOneZone
    { eventType := some etSTOPPED, eventId := none, payload := none }
    { accumulated := none, flow := none }
    (Or.inr ⟨etSTOPPED, rfl, by decide, by decide, Or.inl rfl⟩)

/-- C4: when any component of a run's usage is unknown — the running
`usage` total, the captured `meter_start_value`, or the fresh accumulated
reading — a terminal (non-STARTED, non-PAUSED) webhook on an open zone
still finalizes: it emits exactly one record whose usage field is `none`
(unknown, never zero and never a number), resets `usage` to `0` and `flow`
to `none`, and closes the valve; no fault is raised. -/
theorem flowmon_C4_unknown_usage_still_finalizes
    (zones : Zones) (et eid : String) (z : Nat) (zone : zone_state)
    (meter : MeterData)
    (hz : zones z = some zone) (ho : zone.valve_open = true)
    (h1 : strContains et "WEBHOOK_TEST" = false)
    (h2 : strContains et "DEVICE_ZONE_RUN" = true)
    (h3 : strContains et "STARTED" = false)
    (h4 : strContains et "PAUSED" = false)
    (hunk : zone.usage = none ∨ zone.meter_start_value = none ∨
      meter.accumulated = none) :
    handleWebhook zones (mkRunEvent et eid z) meter
      = .ok (updZone zones z
               { zone with valve_open := false, usage := some 0, flow := none },
             { Effects.pure with
                 records := [{ zoneName := zone.name, usage := none,
                               flow := zone.flow }] }) := by
  obtain h | h | h := hunk <;>
    simp [handleWebhook, mkRunEvent, hz, ho, h1, h2, h3, h4, h]

/-- Witness for C4: a `STOPPED` event for the open zone 2 while the meter
read fails (`accumulated` absent) still emits a record with unknown usage
and closes the zone. -/
theorem flowmon_C4_witness :
    handleWebhook zonesW (mkRunEvent etSTOPPED "e2" 2)
      { accumulated := none, flow := none }
      = .ok (updZone zonesW 2
               { zoneOpenW with
                   valve_open := false, usage := some 0, flow := none },
             { Effects.pure with
                 records := [{ zoneName := "back yard", usage := none,
                               flow := none }] }) := by
  have h := flowmon_C4_unknown_usage_still_finalizes zonesW etSTOPPED "e2" 2
    zoneOpenW { accumulated := none, flow := none } rfl rfl (by decide)
    (by decide) (by decide) (by decide) (Or.inr (Or.inr rfl))
  simpa [zoneOpenW] using h

/-- A zone open under correlation id `"e1"` at number 3, with no flow
sample yet. -/
def zoneOpenC5 : zone_state :=
  { valve_open := true, meter_start_value := some 100, flow := none,
    usage := some 0, startId := some "e1", id := "zid3", name := "side yard" }

/-- Registry holding only the open zone 3. -/
def zonesC5 : Zones := fun n => if n = 3 then some zoneOpenC5 else none

/-- The `[FLOW]` config section with a per-zone ceiling of `5.0` configured
for zone number 3 under the key `"3"` (the stringified zone number). -/
def flowConfigC5 : String → Option String :=
  fun k => if k = "3" then some "5.0" else none

/-- C5 failing input: zone 3 is open under `"e1"`, a matching `FlowSample`
arrives, the meter samples a flow of `10`, and a ceiling of `5.0` is
configured for zone number 3 — yet no excess-flow alert is sent, because
line 440 looks the ceiling up under the literal string key
`'str(zoneNumber)'` instead of `str(zoneNumber)`, so a per-zone ceiling
configured under the zone's number is never found.  (Had the literal key
been present, `zone.flow > flow_limit` would compare a float with the raw
config string and raise `TypeError`, so the alert is unreachable either
way.)  The sampled flow is still stored. -/
theorem flowmon_C5_ceiling_never_found :
    (handleFlowTimer zonesC5 flowConfigC5 3 "e1"
        { accumulated := none, flow := some 10 }).map
      (fun out => (out.2.alerts, (out.1 3).map zone_state.flow))
      = .ok ([], some (some 10)) := rfl

/-- C3: for a `STARTED → PAUSED → STARTED → STOPPED` sequence on one zone
in which every meter read returns an accumulated value (`m1..m4`), exactly
one record is emitted, its usage equals the sum of the two run-segment
deltas `(m2 - m1) + (m4 - m3)`, and finalization leaves the zone closed
with `flow` reset to unknown and `usage` reset to `0`. -/
theorem flowmon_C3_pause_resume_usage_sum
    (zones : Zones) (z : Nat) (zone : zone_state) (m1 m2 m3 m4 : Rat)
    (e1 e2 : String)
    (hz : zones z = some zone) (hc : zone.valve_open = false)
    (hu : zone.usage = some 0) :
    (runWebhooks zones
        [ (mkRunEvent etSTARTED e1 z, { accumulated := some m1, flow := none }),
          (mkRunEvent etPAUSED "p1" z, { accumulated := some m2, flow := none }),
          (mkRunEvent etSTARTED e2 z, { accumulated := some m3, flow := none }),
          (mkRunEvent etSTOPPED "s1" z,
            { accumulated := some m4, flow := none }) ]).map
      (fun out => (out.2, (out.1 z).map zone_state.flow,
                   (out.1 z).map zone_state.valve_open,
                   (out.1 z).map zone_state.usage))
      = .ok ([{ zoneName := zone.name,
                usage := some ((m2 - m1) + (m4 - m3)),
                flow := zone.flow }],
             some none, some false, some (some 0)) := by
  simp [runWebhooks, handleWebhook, mkRunEvent, hz, hc, hu, Except.map,
    Effects.pure]
  ring

/-- Witness for C3: meter readings 100, 110, 112, 120 on zone 1 give an
emitted usage of 18 and a reset zone. -/
theorem flowmon_C3_witness :
    (runWebhooks zonesOneZone
        [ (mkRunEvent etSTARTED "e1" 1,
            { accumulated := some 100, flow := none }),
          (mkRunEvent etPAUSED "p1" 1,
            { accumulated := some 110, flow := none }),
          (mkRunEvent etSTARTED "e2" 1,
            { accumulated := some 112, flow := none }),
          (mkRunEvent etSTOPPED "s1" 1,
            { accumulated := some 120, flow := none }) ]).map
      (fun out => (out.2, (out.1 1).map zone_state.flow,
                   (out.1 1).map zone_state.valve_open,
                   (out.1 1).map zone_state.usage))
      = .ok ([{ zoneName := "front yard",
                usage := some ((110 - 100) + (120 - 112)), flow := none }],
             some none, some false, some (some 0)) := by
  have h := flowmon_C3_pause_resume_usage_sum zonesOneZone 1
    (zone_state.init "zid1" "front yard") 100 110 112 120 "e1" "e2"
    rfl rfl rfl
  simpa [zone_state.init] using h

/-- C8: `PostHandler` enqueues a webhook event iff every validation step
passes: the callback path must match, `Content-Length` must be present and
integral, `Content-Type` must be `application/json`, and the body must
decode.  On any failure `do_POST` answers `400 Bad Request` and enqueues
nothing; on success it answers `200`/`OK` and enqueues exactly one
`WEBHOOK` event carrying the decoded data. -/
theorem flowmon_C8_validation_gate (req : HttpRequest) :
    (PostHandler.validate req = none ↔
      req.path ≠ webhook_path ∨
      parseContentLength req.contentLengthHeader = none ∨
      req.contentTypeHeader ≠ some "application/json" ∨
      req.decodedBody = none) ∧
    (PostHandler.validate req = none →
      PostHandler.do_POST req = ({ status := 400, okBody := false }, [])) ∧
    (∀ d, PostHandler.validate req = some d →
      PostHandler.do_POST req
        = ({ status := 200, okBody := true }, [(EVENT_TYPE.WEBHOOK, d)])) := by
  refine ⟨?_, ?_, ?_⟩
  · unfold PostHandler.validate
    by_cases hp : req.path = webhook_path <;>
      by_cases hl : parseContentLength req.contentLengthHeader = none <;>
        by_cases ht : req.contentTypeHeader = some "application/json" <;>
          cases hb : req.decodedBody <;> simp [hp, hl, ht, hb]
  · intro h
    simp [PostHandler.do_POST, h]
  · intro d h
    simp [PostHandler.do_POST, h]

/-- A fully valid inbound POST carrying a zone-run payload. -/
def goodReq : HttpRequest :=
  { path := "/rachio.json", contentLengthHeader := some "42",
    contentTypeHeader := some "application/json",
    decodedBody := some (mkRunEvent etSTARTED "e1" 3) }

/-- The same POST with a wrong content type. -/
def badReq : HttpRequest := { goodReq with contentTypeHeader := some "text/plain" }

/-- Witness for C8: the wrong-content-type request is rejected with `400`
and enqueues nothing; the valid request is acknowledged with `200`/`OK`
and enqueues exactly one event with its decoded payload. -/
theorem flowmon_C8_witness :
    PostHandler.do_POST badReq = ({ status := 400, okBody := false }, []) ∧
    PostHandler.do_POST goodReq
      = ({ status := 200, okBody := true },
         [(EVENT_TYPE.WEBHOOK, mkRunEvent etSTARTED "e1" 3)]) :=
  ⟨(flowmon_C8_validation_gate badReq).2.1 (by decide),
   (flowmon_C8_validation_gate goodReq).2.2 (mkRunEvent etSTARTED "e1" 3)
     (by decide)⟩

/-- C9: a dequeued webhook whose event type carries the `WEBHOOK_TEST`
marker sets the watchdog completion flag and is otherwise dropped — the
registry is returned unchanged and no record, alert or timer is produced;
and the watchdog's bounded wait raises the
`'Irrigation webhook test failed'` alert exactly when the flag was not set
within the timeout, and ends with the flag cleared exactly when it was
observed in time (on timeout the flag was never set, so it is likewise
unset afterwards). -/
theorem flowmon_C9_selftest_roundtrip :
    (∀ (zones : Zones) (edata : WebhookData) (meter : MeterData)
        (et : String),
        edata.eventType = some et → strContains et "WEBHOOK_TEST" = true →
        handleWebhook zones edata meter
          = .ok (zones, { Effects.pure with flagSet := true })) ∧
    (∀ flag : Bool,
        leak_check_selftest_wait flag
          = (false, if flag then [] else ["Irrigation webhook test failed"])) := by
  constructor
  · intro zones edata meter et het h
    simp [handleWebhook, het, h]
  · intro flag
    cases flag <;> rfl

/-- Witness for C9: a concrete `WEBHOOK_TEST` webhook sets the flag and
changes nothing else; a timed-out wait raises the alert. -/
theorem flowmon_C9_witness :
    handleWebhook zonesOneZone
      { eventType := some "WEBHOOK_TEST", eventId := none, payload := none }
      { accumulated := none, flow := none }
      = .ok (zonesOneZone, { Effects.pure with flagSet := true }) ∧
    leak_check_selftest_wait false
      = (false, ["Irrigation webhook test failed"]) :=
  ⟨flowmon_C9_selftest_roundtrip.1 zonesOneZone
      { eventType := some "WEBHOOK_TEST", eventId := none, payload := none }
      { accumulated := none, flow := none } "WEBHOOK_TEST" rfl (by decide),
   flowmon_C9_selftest_roundtrip.2 false⟩
